import Mathlib

/-!
COMP3123-Lab05: the user routes (`routes/users.js`)

A shallow embedding of the three Express handlers of `routes/users.js`
(`GET /profile`, `POST /login`, `GET /logout`) and the properties of the
written specification that concern them.

The handlers work on ECMAScript values, so the embedding starts with the values
that `JSON.parse` and the request parsers can produce, the three operators the
handlers apply to them (`!v`, `a !== b`, template conversion), property reads,
and `try`/`catch`.  A handler is a function from its request input (and the
state of `user.json`) to either a response or an escaping exception.

What is stored in `user.json` and what a client receives are JSON documents;
`JSONparse` and `JSONstringify` relate them to the values the handlers hold,
numbers included (binary64, by exact integer arithmetic).
-/

namespace Lab05

/-! ## ECMAScript values -/

/-- An ECMAScript Number, an IEEE-754 binary64 value, kept exactly by its integer fields:
`fin neg m e` is the number `m * 2 ^ e`, negated when `neg`, with `m < 2 ^ 53`,
`-1074 ≤ e ≤ 971` and `2 ^ 52 ≤ m` unless `e = -1074`.  Zero is `fin false 0 0`: the sign of
zero is not kept, as none of `!`, `!==`, template conversion and `JSON.stringify` observes
it. -/
inductive JsNum where
  | nan : JsNum
  | inf (neg : Bool) : JsNum
  | fin (neg : Bool) (m : Nat) (e : Int) : JsNum
  deriving DecidableEq

/-- The ECMAScript values the handlers can meet: `undefined` and the values of the JSON data
model.  An object is the list of its own properties, in the order in which the language
enumerates them (distinct keys). -/
inductive JsVal where
  | undefined : JsVal
  | null : JsVal
  | bool (b : Bool) : JsVal
  | num (x : JsNum) : JsVal
  | str (s : String) : JsVal
  | arr (items : List JsVal) : JsVal
  | obj (props : List (String × JsVal)) : JsVal

/-- The exceptions that can be thrown while a handler runs. -/
inductive JsError where
  | typeError : JsError
  | syntaxError : JsError
  | ioError : JsError
  deriving DecidableEq

/-- The Number is zero. -/
def JsNum.isZero : JsNum → Bool
  | .fin _ m _ => m == 0
  | _ => false

/-- ToBoolean: the value `v` is truthy, that is `!v` is `false`.  The falsy values are
`undefined`, `null`, `false`, zero, `NaN` and the empty string. -/
def truthy : JsVal → Bool
  | .undefined => false
  | .null => false
  | .bool b => b
  | .num x => !x.isZero && x != .nan
  | .str s => s != ""
  | .arr _ => true
  | .obj _ => true

/-- Strict equality `a === b` between a value read from `user.json` and a value read from the
request.  Values of different types are never equal, primitives are compared by value (`NaN`
equals nothing), and an object or array is equal only to itself: the two operands come from
two separate parses, so they are never the same object. -/
def strictEq : JsVal → JsVal → Bool
  | .undefined, .undefined => true
  | .null, .null => true
  | .bool a, .bool b => a == b
  | .num a, .num b => a == b && a != .nan
  | .str a, .str b => a == b
  | _, _ => false

/-- Strict inequality `a !== b`. -/
def strictNe (a b : JsVal) : Bool := !strictEq a b

/-- The property read `v.k` (also the destructuring `const { k } = v`) for a name `k` that no
built-in prototype defines, as `username` and `password` are.  Reading from `undefined` or
`null` throws a TypeError; an object gives its own property or `undefined`; every other value
gives `undefined`. -/
def getField (v : JsVal) (k : String) : Except JsError JsVal :=
  match v with
  | .undefined => .error .typeError
  | .null => .error .typeError
  | .obj props => .ok ((props.lookup k).getD .undefined)
  | _ => .ok .undefined

/-! ## Numbers: from a decimal to binary64 and back

`JSON.parse` turns a number literal into the nearest binary64 value (ties to the even
significand); `Number.prototype.toString` and `JSON.stringify` print the shortest decimal that
reads back as the same value.  Both are exact integer computations. -/

/-- The number of binary digits of `n` (`fuel` at least that number). -/
def bitLength : Nat → Nat → Nat
  | 0, _ => 0
  | fuel + 1, n => if n = 0 then 0 else bitLength fuel (n / 2) + 1

/-- The integer `l` with `2 ^ l ≤ n / d < 2 ^ (l + 1)`, for positive `n` and `d`. -/
def floorLog2 (n d : Nat) : Int :=
  let l : Int := (bitLength n n : Int) - (bitLength d d : Int)
  if 0 ≤ l then (if d * 2 ^ l.toNat ≤ n then l else l - 1)
  else (if d ≤ n * 2 ^ (-l).toNat then l else l - 1)

/-- The positive rational `n / d` rounded to binary64, as significand and exponent
`(m, e)` of the result `m * 2 ^ e`: 53 significant bits, no exponent below `-1074`, ties to
the even significand.  An exponent above 971 stands for an overflow. -/
def roundBinary (n d : Nat) : Nat × Int :=
  let e : Int := max (floorLog2 n d - 52) (-1074)
  let n1 := if 0 ≤ e then n else n * 2 ^ (-e).toNat
  let d1 := if 0 ≤ e then d * 2 ^ e.toNat else d
  let q := n1 / d1
  let r := n1 % d1
  let m := if d1 < 2 * r ∨ (2 * r = d1 ∧ q % 2 = 1) then q + 1 else q
  if m = 2 ^ 53 then (2 ^ 52, e + 1) else (m, e)

/-- The Number value of the rational `n / d`, negated when `neg`. -/
def numberValue (neg : Bool) (n d : Nat) : JsNum :=
  if n = 0 then .fin false 0 0
  else
    let r := roundBinary n d
    if r.1 = 0 then .fin false 0 0
    else if 971 < r.2 then .inf neg
    else .fin neg r.1 r.2

/-- The Number value of a number literal that denotes the rational `q`. -/
def toNumber (q : ℚ) : JsNum := numberValue (decide (q < 0)) q.num.natAbs q.den

/-- The integer `p` with `10 ^ (p - 1) ≤ n / d < 10 ^ p`, for positive `n` and `d`. -/
def decimalPoint (n d : Nat) : Int :=
  if d ≤ n then ((Nat.toDigits 10 (n / d)).length : Int)
  else
    let a := (Nat.toDigits 10 (d / n)).length
    if d ≤ n * 10 ^ (a - 1) then 2 - (a : Int) else 1 - (a : Int)

/-- The decimal `s * 10 ^ t` reads back as the binary64 value `m * 2 ^ e`. -/
def roundsTo (m : Nat) (e : Int) (s : Nat) (t : Int) : Bool :=
  s != 0 &&
    (if 0 ≤ t then roundBinary (s * 10 ^ t.toNat) 1 else roundBinary s (10 ^ (-t).toNat))
      == (m, e)

/-- Among the two multiples of `10 ^ t` that enclose `n / d`, the one that reads back as
`m * 2 ^ e`; when both do, the nearer one (the even one on a tie). -/
def candidate (m : Nat) (e : Int) (n d : Nat) (t : Int) : Option Nat :=
  let n1 := if 0 ≤ t then n else n * 10 ^ (-t).toNat
  let d1 := if 0 ≤ t then d * 10 ^ t.toNat else d
  let s := n1 / d1
  let r := n1 % d1
  match roundsTo m e s t, roundsTo m e (s + 1) t with
  | true, true => if 2 * r < d1 ∨ (2 * r = d1 ∧ s % 2 = 0) then some s else some (s + 1)
  | true, false => some s
  | false, true => some (s + 1)
  | false, false => none

/-- The search for the least number of digits `k` (from `k` on, `fuel` tries) with which a
decimal reads back as `m * 2 ^ e`, the value of `n / d`; `p` is its `decimalPoint`. -/
def searchDigits (m : Nat) (e : Int) (n d : Nat) (p : Int) : Nat → Nat → Nat × Int
  | 0, _ => (n / d, 0)
  | fuel + 1, k =>
    match candidate m e n d (p - k) with
    | some s => (s, p - k)
    | none => searchDigits m e n d p fuel (k + 1)

/-- The decimal `s * 10 ^ t` without trailing zeros in `s`. -/
def stripZeros : Nat → Nat → Int → Nat × Int
  | 0, s, t => (s, t)
  | fuel + 1, s, t =>
    if s != 0 && s % 10 == 0 then stripZeros fuel (s / 10) (t + 1) else (s, t)

/-- The shortest decimal `(s, t)`, read `s * 10 ^ t`, that reads back as the positive binary64
value `m * 2 ^ e`; seventeen digits always suffice. -/
def shortestDecimal (m : Nat) (e : Int) : Nat × Int :=
  let n := if 0 ≤ e then m * 2 ^ e.toNat else m
  let d := if 0 ≤ e then 1 else 2 ^ (-e).toNat
  let r := searchDigits m e n d (decimalPoint n d) 17 1
  stripZeros 20 r.1 r.2

/-- A run of `n` zeros. -/
def zeros (n : Nat) : String := String.mk (List.replicate n '0')

/-- The text `Number.prototype.toString` gives the decimal `s * 10 ^ t`, with `k` digits in `s`
and `n = t + k`: plain digits when `k ≤ n ≤ 21`, a decimal point inside them when
`0 < n ≤ 21`, leading `0.` and zeros when `-6 < n ≤ 0`, and exponent form otherwise. -/
def formatDecimal (s : Nat) (t : Int) : String :=
  let ds := (toString s).data
  let k : Int := ds.length
  let n : Int := t + k
  if k ≤ n ∧ n ≤ 21 then String.mk ds ++ zeros (n - k).toNat
  else if 0 < n ∧ n ≤ 21 then String.mk (ds.take n.toNat) ++ "." ++ String.mk (ds.drop n.toNat)
  else if -6 < n ∧ n ≤ 0 then "0." ++ zeros (-n).toNat ++ String.mk ds
  else
    let x := n - 1
    let ex := (if x < 0 then "-" else "+") ++ toString x.natAbs
    if ds.length = 1 then String.mk ds ++ "e" ++ ex
    else String.mk (ds.take 1) ++ "." ++ String.mk (ds.drop 1) ++ "e" ++ ex

/-- ToString of a Number (`Number.prototype.toString`, radix ten). -/
def numberToString : JsNum → String
  | .nan => "NaN"
  | .inf neg => if neg then "-Infinity" else "Infinity"
  | .fin neg m e =>
    if m = 0 then "0"
    else
      let r := shortestDecimal m e
      (if neg then "-" else "") ++ formatDecimal r.1 r.2

/-! ## Template conversion -/

/-- The object has an own property named `toString`. -/
def shadowsToString (props : List (String × JsVal)) : Bool :=
  props.any fun p => p.1 == "toString"

mutual
/-- ToString, the conversion a template literal applies to an interpolated value.  An array is
its elements joined by commas.  An object goes through `toString` and then `valueOf`: the
values of a parsed request are never functions, so an own `toString` property hides
`Object.prototype.toString` and the conversion throws a TypeError; without one the result is
`[object Object]`. -/
def toStr : JsVal → Except JsError String
  | .undefined => .ok "undefined"
  | .null => .ok "null"
  | .bool b => .ok (if b then "true" else "false")
  | .num x => .ok (numberToString x)
  | .str s => .ok s
  | .arr items => joinItems items
  | .obj props => if shadowsToString props then .error .typeError else .ok "[object Object]"
/-- The text of `Array.prototype.join` with the default separator, the elements converted from
left to right: `undefined` and `null` elements contribute the empty string. -/
def joinItems : List JsVal → Except JsError String
  | [] => .ok ""
  | [x] => itemStr x
  | x :: y :: rest =>
    match itemStr x with
    | .error err => .error err
    | .ok a =>
      match joinItems (y :: rest) with
      | .error err => .error err
      | .ok b => .ok (a ++ "," ++ b)
/-- One element of a joined array. -/
def itemStr : JsVal → Except JsError String
  | .undefined => .ok ""
  | .null => .ok ""
  | .bool b => .ok (if b then "true" else "false")
  | .num x => .ok (numberToString x)
  | .str s => .ok s
  | .arr items => joinItems items
  | .obj props => if shadowsToString props then .error .typeError else .ok "[object Object]"
end

/-! ## JSON documents, `JSON.parse` and `JSON.stringify` -/

/-- A JSON document, the content of a JSON text: a number literal is kept as the rational it
denotes, an object as its members in the order of the text (a name may occur twice). -/
inductive Json where
  | null : Json
  | bool (b : Bool) : Json
  | num (q : ℚ) : Json
  | str (s : String) : Json
  | arr (items : List Json) : Json
  | obj (members : List (String × Json)) : Json

/-- The array index a property name stands for: a decimal without a leading zero, below
`2 ^ 32 - 1`. -/
def arrayIndex (k : String) : Option Nat :=
  let ds := k.data
  if ds ≠ [] ∧ ds.all Char.isDigit = true ∧ (ds.head? ≠ some '0' ∨ ds.length = 1) then
    let n := ds.foldl (fun acc c => 10 * acc + (c.toNat - 48)) 0
    if n < 2 ^ 32 - 1 then some n else none
  else none

/-- The property named `k` is enumerated before the property named `k2`, whatever the order of
their creation: array indices come first, in ascending order. -/
def enumeratedBefore (k k2 : String) : Bool :=
  match arrayIndex k, arrayIndex k2 with
  | some i, some j => i < j
  | some _, none => true
  | none, _ => false

/-- A new property takes its place in the enumeration order: an array index among the
indices, any other name at the end. -/
def insertNew (k : String) (v : JsVal) : List (String × JsVal) → List (String × JsVal)
  | [] => [(k, v)]
  | p :: rest => if enumeratedBefore k p.1 then (k, v) :: p :: rest else p :: insertNew k v rest

/-- An existing property gets a new value and keeps its place. -/
def replaceProp (k : String) (v : JsVal) : List (String × JsVal) → List (String × JsVal)
  | [] => []
  | p :: rest => if p.1 = k then (k, v) :: rest else p :: replaceProp k v rest

/-- CreateDataProperty, as `JSON.parse` applies it to each member of an object in turn. -/
def defineProp (props : List (String × JsVal)) (k : String) (v : JsVal) :
    List (String × JsVal) :=
  if props.any (fun p => p.1 == k) then replaceProp k v props else insertNew k v props

mutual
/-- The value `JSON.parse` returns for a text with the content `doc`. -/
def JSONparse : Json → JsVal
  | .null => .null
  | .bool b => .bool b
  | .num q => .num (toNumber q)
  | .str s => .str s
  | .arr items => .arr (parseItems items)
  | .obj members => .obj (parseMembers [] members)
/-- The elements of a parsed array. -/
def parseItems : List Json → List JsVal
  | [] => []
  | x :: rest => JSONparse x :: parseItems rest
/-- The properties of a parsed object: the members are defined one after the other on the
properties `acc` defined so far. -/
def parseMembers (acc : List (String × JsVal)) : List (String × Json) → List (String × JsVal)
  | [] => acc
  | m :: rest => parseMembers (defineProp acc m.1 (JSONparse m.2)) rest
end

/-- The number literal `JSON.stringify` writes for a Number: the shortest decimal that reads
back as it; `null` for `NaN` and the infinities. -/
def numberJson : JsNum → Json
  | .nan => .null
  | .inf _ => .null
  | .fin neg m e =>
    if m = 0 then .num 0
    else
      let r := shortestDecimal m e
      .num (mkRat ((if neg then -1 else 1) * ((r.1 * 10 ^ r.2.toNat : Nat) : Int))
        (10 ^ (-r.2).toNat))

mutual
/-- The content of the text `JSON.stringify(v)`, which is what `res.json(v)` sends; `none` when
`JSON.stringify` returns `undefined`.  In an array `undefined` becomes `null`; in an object a
property whose value is `undefined` is left out. -/
def JSONstringify : JsVal → Option Json
  | .undefined => none
  | .null => some .null
  | .bool b => some (.bool b)
  | .num x => some (numberJson x)
  | .str s => some (.str s)
  | .arr items => some (.arr (stringifyItems items))
  | .obj props => some (.obj (stringifyProps props))
/-- The elements of a serialised array. -/
def stringifyItems : List JsVal → List Json
  | [] => []
  | x :: rest => (JSONstringify x).getD .null :: stringifyItems rest
/-- The members of a serialised object. -/
def stringifyProps : List (String × JsVal) → List (String × Json)
  | [] => []
  | p :: rest =>
    match JSONstringify p.2 with
    | some j => (p.1, j) :: stringifyProps rest
    | none => stringifyProps rest
end

/-! ## Responses -/

/-- The body of a response: `res.json(v)` sends the value `v` as JSON, `res.send(s)` sends the
string `s` as markup. -/
inductive Body where
  | json (v : JsVal) : Body
  | html (s : String) : Body

/-- The response a handler sends: the HTTP status (200 unless `res.status` set it) and the
body. -/
structure Response where
  status : Nat
  body : Body

/-- The outcome of a handler: the response it sent, or the exception that escaped it. -/
abbrev Outcome := Except JsError Response

/-- The statement `try { body } catch (error) { handler }`. -/
def tryCatch (body : Outcome) (handler : JsError → Outcome) : Outcome :=
  match body with
  | .ok r => .ok r
  | .error e => handler e

/-! ## Storage: `user.json` -/

/-- The state of the file `user.json` as the expression
`JSON.parse(fs.readFileSync(userDataPath, "utf8"))` meets it: the file is missing, it exists
but cannot be read, its text is not JSON, or its text parses to the value `v`. -/
inductive UserFile where
  | missing : UserFile
  | unreadable : UserFile
  | malformed (text : String) : UserFile
  | parsed (v : JsVal) : UserFile

/-- The expression `JSON.parse(fs.readFileSync(userDataPath, "utf8"))`: `readFileSync` throws on
a missing or unreadable file, `JSON.parse` throws a SyntaxError on malformed text. -/
def readUserData : UserFile → Except JsError JsVal
  | .missing => .error .ioError
  | .unreadable => .error .ioError
  | .malformed _ => .error .syntaxError
  | .parsed v => .ok v

/-! ## The handlers -/

/-- The body `{ error: "Failed to read user data" }`. -/
def profileErrorBody : JsVal := .obj [("error", .str "Failed to read user data")]

/-- The handler of `GET /profile` (users.js, lines 9-17). -/
def profile (file : UserFile) : Outcome :=
  tryCatch
    (do
      let userData ← readUserData file
      pure ⟨200, .json userData⟩)
    (fun _ => pure ⟨500, .json profileErrorBody⟩)

/-- The body `{ status: s, message: m }`. -/
def statusBody (s : Bool) (m : String) : JsVal := .obj [("status", .bool s), ("message", .str m)]

/-- The MissingInput response of `/login`. -/
def missingInput : Response := ⟨400, .json (statusBody false "Username and password are required")⟩

/-- The UsernameMismatch response of `/login`. -/
def usernameMismatch : Response := ⟨200, .json (statusBody false "User Name is invalid")⟩

/-- The PasswordMismatch response of `/login`. -/
def passwordMismatch : Response := ⟨200, .json (statusBody false "Password is invalid")⟩

/-- The Valid response of `/login`. -/
def valid : Response := ⟨200, .json (statusBody true "User Is valid")⟩

/-- The response of the `catch` block of `/login`. -/
def loginError : Response := ⟨500, .json (.obj [("error", .str "Server error during login")])⟩

/-- The handler of `POST /login` (users.js, lines 40-76); `body` is `req.body`. -/
def login (body : JsVal) (file : UserFile) : Outcome :=
  tryCatch
    (do
      let username ← getField body "username"
      let password ← getField body "password"
      if !truthy username || !truthy password then
        pure missingInput
      else do
        let userData ← readUserData file
        let storedUsername ← getField userData "username"
        if strictNe storedUsername username then
          pure usernameMismatch
        else do
          let storedPassword ← getField userData "password"
          if strictNe storedPassword password then
            pure passwordMismatch
          else
            pure valid)
    (fun _ => pure loginError)

/-- The handler of `GET /logout` (users.js, lines 82-90); `query` is the list of the properties
of `req.query`, which Express always makes an object.  The handler has no `try`: an exception
of the template conversion leaves it. -/
def logout (query : List (String × JsVal)) : Outcome :=
  let username := (query.lookup "username").getD .undefined
  if !truthy username then
    pure ⟨400, .html "<b>Username parameter is required</b>"⟩
  else do
    let text ← toStr username
    pure ⟨200, .html ("<b>" ++ text ++ " successfully logged out.</b>")⟩

/-! ## Observations and the scenario of the specification -/

/-- The payload of the response `r` carries `status: true`. -/
def carriesStatusTrue (r : Response) : Bool :=
  match r.body with
  | .json (.obj props) =>
    match props.lookup "status" with
    | some (.bool true) => true
    | _ => false
  | _ => false

/-- A JSON object `{ username: u, password: p }`, as a request body or as the content of
`user.json`. -/
def credentials (u p : String) : JsVal := .obj [("username", .str u), ("password", .str p)]

/-- The stored record of the scenario of the specification. -/
def adminRecord : JsVal := credentials "admin" "secret"

/-- A stored record of string fields, as the data model describes the user record: the JSON
object with the members `fields`, in this order. -/
def record (fields : List (String × String)) : Json :=
  .obj (fields.map fun f => (f.1, .str f.2))

/-- The state of `user.json` when its text is a JSON text with the content `doc`. -/
def stored (doc : Json) : UserFile := .parsed (JSONparse doc)

/-- The JSON content of the body of the response `r`, as the client receives it. -/
def sentJson (r : Response) : Option Json :=
  match r.body with
  | .json v => JSONstringify v
  | .html _ => none

/-- The JSON string of a string value (`null` for any other value); it names what
`JSON.stringify` does on the values of a record of strings. -/
def strJson : JsVal → Json
  | .str s => .str s
  | _ => .null

/-! ## Basic facts about the operators -/

theorem truthy_str (s : String) : truthy (.str s) = true ↔ s ≠ "" := by
  simp [truthy]

theorem truthy_undefined : truthy .undefined = false := rfl

theorem strictEq_str (a b : String) : strictEq (.str a) (.str b) = true ↔ a = b := by
  simp [strictEq]

theorem toStr_str (s : String) : toStr (.str s) = .ok s := by
  simp [toStr]

/-- Of the five responses of `/login`, only Valid carries `status: true`. -/
theorem carriesStatusTrue_valid : carriesStatusTrue valid = true := rfl

theorem carriesStatusTrue_missingInput : carriesStatusTrue missingInput = false := rfl

theorem carriesStatusTrue_usernameMismatch : carriesStatusTrue usernameMismatch = false := rfl

theorem carriesStatusTrue_passwordMismatch : carriesStatusTrue passwordMismatch = false := rfl

theorem carriesStatusTrue_loginError : carriesStatusTrue loginError = false := rfl

theorem strictEq_str_right (v : JsVal) (s : String) :
    strictEq v (.str s) = true ↔ v = .str s := by
  cases v <;> simp [strictEq]

theorem getField_eq_str (v : JsVal) (k s : String) :
    getField v k = .ok (.str s) ↔ ∃ props, v = .obj props ∧ props.lookup k = some (.str s) := by
  cases v <;> simp [getField]
  rename_i props
  cases h : props.lookup k <;> simp

theorem getField_truthy (v : JsVal) (k : String) (u : JsVal)
    (h : getField v k = .ok u) (hu : truthy u = true) :
    ∃ props, v = .obj props ∧ props.lookup k = some u := by
  cases v with
  | obj props =>
    cases hl : props.lookup k with
    | none =>
      simp [getField, hl] at h
      subst h
      simp [truthy] at hu
    | some w =>
      simp [getField, hl] at h
      subst h
      exact ⟨props, rfl, hl⟩
  | undefined => simp [getField] at h
  | null => simp [getField] at h
  | bool b => simp [getField] at h; subst h; simp [truthy] at hu
  | num x => simp [getField] at h; subst h; simp [truthy] at hu
  | str s => simp [getField] at h; subst h; simp [truthy] at hu
  | arr items => simp [getField] at h; subst h; simp [truthy] at hu

theorem readUserData_eq_ok (file : UserFile) (data : JsVal) :
    readUserData file = .ok data ↔ file = .parsed data := by
  cases file <;> simp [readUserData]

/-- The handler of `/profile` passes the parsed value to `res.json` as it is. -/
theorem profile_parsed (v : JsVal) : profile (.parsed v) = .ok ⟨200, .json v⟩ := rfl

theorem insertNew_perm (k : String) (v : JsVal) (props : List (String × JsVal)) :
    (insertNew k v props).Perm ((k, v) :: props) := by
  induction props with
  | nil => simp [insertNew]
  | cons p rest ih =>
    simp only [insertNew]
    split
    · exact List.Perm.refl _
    · exact (List.Perm.cons p ih).trans (List.Perm.swap _ _ _)

theorem insertNew_of_not_index (k : String) (v : JsVal) (hk : arrayIndex k = none)
    (props : List (String × JsVal)) : insertNew k v props = props ++ [(k, v)] := by
  induction props with
  | nil => simp [insertNew]
  | cons p rest ih => simp [insertNew, enumeratedBefore, hk, ih]

theorem defineProp_new (props : List (String × JsVal)) (k : String) (v : JsVal)
    (hk : k ∉ props.map Prod.fst) : defineProp props k v = insertNew k v props := by
  have h : props.any (fun p => p.1 == k) = false := by
    rw [Bool.eq_false_iff]
    intro hany
    rw [List.any_eq_true] at hany
    obtain ⟨p, hp, hpk⟩ := hany
    exact hk (List.mem_map.mpr ⟨p, hp, by simpa using hpk⟩)
  simp [defineProp, h]

theorem parseMembers_record (acc : List (String × JsVal)) (fields : List (String × String)) :
    parseMembers acc (fields.map fun f => (f.1, Json.str f.2))
      = fields.foldl (fun a f => defineProp a f.1 (.str f.2)) acc := by
  induction fields generalizing acc with
  | nil => simp [parseMembers]
  | cons f rest ih => simp [parseMembers, JSONparse, ih]

/-- Members with distinct new names are all defined: the properties are the old ones and the
members, in the enumeration order. -/
theorem foldl_defineProp_perm (fields : List (String × String)) :
    ∀ acc : List (String × JsVal), (fields.map Prod.fst).Nodup →
      (∀ k ∈ fields.map Prod.fst, k ∉ acc.map Prod.fst) →
      (fields.foldl (fun a f => defineProp a f.1 (.str f.2)) acc).Perm
        (acc ++ fields.map fun f => (f.1, JsVal.str f.2)) := by
  induction fields with
  | nil => intro acc _ _; simp
  | cons f rest ih =>
    intro acc hnd hdis
    simp only [List.map_cons, List.nodup_cons] at hnd
    have hf : f.1 ∉ acc.map Prod.fst := hdis f.1 (by simp)
    have hstep := defineProp_new acc f.1 (.str f.2) hf
    have hperm := insertNew_perm f.1 (.str f.2) acc
    simp only [List.foldl_cons, List.map_cons, hstep]
    refine (ih (insertNew f.1 (.str f.2) acc) hnd.2 ?_).trans ?_
    · intro k hk hmem
      have : k ∈ ((f.1, JsVal.str f.2) :: acc).map Prod.fst := (hperm.map Prod.fst).subset hmem
      simp only [List.map_cons, List.mem_cons] at this
      rcases this with h | h
      · exact hnd.1 (h ▸ hk)
      · exact hdis k (by simp [List.mem_map] at hk ⊢; exact Or.inr hk) h
    · refine (List.Perm.append_right _ hperm).trans ?_
      simp only [List.cons_append]
      exact (List.perm_middle).symm

/-- Without array indices among the names, the enumeration order is the order of the text. -/
theorem foldl_defineProp_append (fields : List (String × String)) :
    ∀ acc : List (String × JsVal), (fields.map Prod.fst).Nodup →
      (∀ k ∈ fields.map Prod.fst, k ∉ acc.map Prod.fst) →
      (∀ f ∈ fields, arrayIndex f.1 = none) →
      fields.foldl (fun a f => defineProp a f.1 (.str f.2)) acc
        = acc ++ fields.map fun f => (f.1, JsVal.str f.2) := by
  induction fields with
  | nil => intro acc _ _ _; simp
  | cons f rest ih =>
    intro acc hnd hdis hidx
    simp only [List.map_cons, List.nodup_cons] at hnd
    have hf : f.1 ∉ acc.map Prod.fst := hdis f.1 (by simp)
    have hstep := defineProp_new acc f.1 (.str f.2) hf
    have hins := insertNew_of_not_index f.1 (.str f.2) (hidx f (by simp)) acc
    simp only [List.foldl_cons, List.map_cons, hstep, hins]
    rw [ih (acc ++ [(f.1, JsVal.str f.2)]) hnd.2 ?_ (fun g hg => hidx g (by simp [hg]))]
    · simp
    · intro k hk hmem
      simp only [List.map_append, List.map_cons, List.map_nil, List.mem_append,
        List.mem_singleton] at hmem
      rcases hmem with h | h
      · exact hdis k (by simp [List.mem_map] at hk ⊢; exact Or.inr hk) h
      · exact hnd.1 (h ▸ hk)

theorem stringifyProps_strings (props : List (String × JsVal))
    (h : ∀ p ∈ props, ∃ s, p.2 = .str s) :
    stringifyProps props = props.map fun p => (p.1, strJson p.2) := by
  induction props with
  | nil => simp [stringifyProps]
  | cons p rest ih =>
    obtain ⟨s, hs⟩ := h p (by simp)
    have := ih (fun q hq => h q (by simp [hq]))
    simp [stringifyProps, hs, JSONstringify, strJson, this]

/-- A request body that is `undefined` or `null` makes the destructuring throw; the `catch`
block answers 500. -/
theorem login_nullish_body (file : UserFile) :
    login .undefined file = .ok loginError ∧ login .null file = .ok loginError :=
  ⟨rfl, rfl⟩

/-- A falsy candidate stops `/login` at the presence check, before the file is read. -/
theorem login_of_falsy (body : JsVal) (file : UserFile) (u p : JsVal)
    (hbu : getField body "username" = .ok u) (hbp : getField body "password" = .ok p)
    (h : truthy u = false ∨ truthy p = false) :
    login body file = .ok missingInput := by
  rcases h with h | h <;>
    simp [login, hbu, hbp, h, tryCatch, bind, Except.bind, pure, Except.pure]

/-- The error text of `/logout` is not a logged-out message. -/
theorem required_ne_logged_out (x : String) :
    "<b>Username parameter is required</b>" ≠ "<b>" ++ x ++ " successfully logged out.</b>" := by
  intro h
  have h2 := congrArg (fun s => s.data.reverse.take 5) h
  simp [String.data_append] at h2

/-! ## `POST /login`: the three outcomes of a credential check -/

/-- C1, as amended: for every readable stored record whose username and password are both
non-empty strings, a `POST /login` whose body carries exactly the stored username and the stored
password gets the Valid outcome, HTTP 200 with `{status: true, message: "User Is valid"}`. -/
theorem login_valid_of_stored (body : JsVal) (file : UserFile) (data : JsVal) (u p : String)
    (hfile : readUserData file = .ok data)
    (hsu : getField data "username" = .ok (.str u))
    (hsp : getField data "password" = .ok (.str p))
    (hu : u ≠ "") (hp : p ≠ "")
    (hbu : getField body "username" = .ok (.str u))
    (hbp : getField body "password" = .ok (.str p)) :
    login body file
      = .ok ⟨200, .json (.obj [("status", .bool true), ("message", .str "User Is valid")])⟩ := by
  simp [login, hbu, hbp, hfile, hsu, hsp, hu, hp, tryCatch, bind, Except.bind, pure,
    Except.pure, truthy, strictNe, strictEq, valid, statusBody]

/-- Witness of C1 as amended: the scenario of the specification, `admin` / `secret`. -/
theorem login_valid_of_stored_witness :
    "admin" ≠ "" ∧ "secret" ≠ "" ∧
    login (credentials "admin" "secret") (.parsed adminRecord)
      = .ok ⟨200, .json (.obj [("status", .bool true), ("message", .str "User Is valid")])⟩ :=
  ⟨by decide, by decide,
    login_valid_of_stored (credentials "admin" "secret") (.parsed adminRecord) adminRecord
      "admin" "secret" rfl rfl rfl (by decide) (by decide) rfl rfl⟩

/-- C1 as stated fails: with the stored record `{username: "", password: "secret"}`, a body that
carries exactly the stored username and password is answered with MissingInput (400), not with
the Valid outcome. -/
theorem login_stored_empty_username_not_valid :
    readUserData (.parsed (credentials "" "secret")) = .ok (credentials "" "secret") ∧
    login (credentials "" "secret") (.parsed (credentials "" "secret")) = .ok missingInput ∧
    login (credentials "" "secret") (.parsed (credentials "" "secret")) ≠ .ok valid :=
  ⟨rfl, rfl, by
    rw [show login (credentials "" "secret") (.parsed (credentials "" "secret"))
      = .ok missingInput from rfl]
    simp [missingInput, valid]⟩

/-- C2, as amended: for every readable stored record, every non-empty candidate username that is
not exactly equal to the stored username and every non-empty candidate password, equal to the
stored password or not, `POST /login` answers HTTP 200 with
`{status: false, message: "User Name is invalid"}`. -/
theorem login_username_mismatch (body : JsVal) (file : UserFile) (data : JsVal)
    (su u p : String)
    (hfile : readUserData file = .ok data)
    (hsu : getField data "username" = .ok (.str su))
    (hne : u ≠ su) (hu : u ≠ "") (hp : p ≠ "")
    (hbu : getField body "username" = .ok (.str u))
    (hbp : getField body "password" = .ok (.str p)) :
    login body file
      = .ok ⟨200, .json (.obj [("status", .bool false),
          ("message", .str "User Name is invalid")])⟩ := by
  have hne2 : ¬ su = u := fun h => hne h.symm
  simp [login, hbu, hbp, hfile, hsu, hu, hp, hne2, tryCatch, bind, Except.bind, pure,
    Except.pure, truthy, strictNe, strictEq, usernameMismatch, statusBody]

/-- Witness of C2 as amended: `bob` / `secret` against the stored `admin` / `secret`. -/
theorem login_username_mismatch_witness :
    "bob" ≠ "admin" ∧ "bob" ≠ "" ∧ "secret" ≠ "" ∧
    login (credentials "bob" "secret") (.parsed adminRecord)
      = .ok ⟨200, .json (.obj [("status", .bool false),
          ("message", .str "User Name is invalid")])⟩ :=
  ⟨by decide, by decide, by decide,
    login_username_mismatch (credentials "bob" "secret") (.parsed adminRecord) adminRecord
      "admin" "bob" "secret" rfl rfl (by decide) (by decide) (by decide) rfl rfl⟩

/-- C2 as stated fails: the empty candidate username differs from the stored `admin`, yet the
answer is MissingInput (400), not UsernameMismatch. -/
theorem login_empty_username_not_mismatch :
    "" ≠ "admin" ∧
    login (credentials "" "secret") (.parsed adminRecord) = .ok missingInput ∧
    login (credentials "" "secret") (.parsed adminRecord) ≠ .ok usernameMismatch :=
  ⟨by decide, rfl, by
    rw [show login (credentials "" "secret") (.parsed adminRecord) = .ok missingInput from rfl]
    simp [missingInput, usernameMismatch]⟩

/-- C3, as amended: for every readable stored record whose username is non-empty, `POST /login`
with the stored username and any non-empty candidate password that is not exactly equal to the
stored password answers HTTP 200 with `{status: false, message: "Password is invalid"}`. -/
theorem login_password_mismatch (body : JsVal) (file : UserFile) (data : JsVal)
    (su sp p : String)
    (hfile : readUserData file = .ok data)
    (hsu : getField data "username" = .ok (.str su))
    (hsp : getField data "password" = .ok (.str sp))
    (hne : p ≠ sp) (hu : su ≠ "") (hp : p ≠ "")
    (hbu : getField body "username" = .ok (.str su))
    (hbp : getField body "password" = .ok (.str p)) :
    login body file
      = .ok ⟨200, .json (.obj [("status", .bool false),
          ("message", .str "Password is invalid")])⟩ := by
  have hne2 : ¬ sp = p := fun h => hne h.symm
  simp [login, hbu, hbp, hfile, hsu, hsp, hu, hp, hne2, tryCatch, bind, Except.bind, pure,
    Except.pure, truthy, strictNe, strictEq, passwordMismatch, statusBody]

/-- Witness of C3 as amended: `admin` / `wrong` against the stored `admin` / `secret`. -/
theorem login_password_mismatch_witness :
    "wrong" ≠ "secret" ∧ "admin" ≠ "" ∧ "wrong" ≠ "" ∧
    login (credentials "admin" "wrong") (.parsed adminRecord)
      = .ok ⟨200, .json (.obj [("status", .bool false),
          ("message", .str "Password is invalid")])⟩ :=
  ⟨by decide, by decide, by decide,
    login_password_mismatch (credentials "admin" "wrong") (.parsed adminRecord) adminRecord
      "admin" "secret" "wrong" rfl rfl rfl (by decide) (by decide) (by decide) rfl rfl⟩

/-- C3 as stated fails: the empty candidate password differs from the stored `secret`, yet the
answer to the stored username with it is MissingInput (400), not PasswordMismatch. -/
theorem login_empty_password_not_mismatch :
    "" ≠ "secret" ∧
    login (credentials "admin" "") (.parsed adminRecord) = .ok missingInput ∧
    login (credentials "admin" "") (.parsed adminRecord) ≠ .ok passwordMismatch :=
  ⟨by decide, rfl, by
    rw [show login (credentials "admin" "") (.parsed adminRecord) = .ok missingInput from rfl]
    simp [missingInput, passwordMismatch]⟩

/-! ## `POST /login`: missing input and unavailable storage -/

/-- C4, as amended: whenever `req.body` can be destructured (it is neither `undefined` nor
`null`, so that the handler gets its two candidates) and the candidate username or the
candidate password is `undefined` or the empty string, the answer is HTTP 400 with
`{status: false, message: "Username and password are required"}`, the same for every state of
`user.json`: the file is not consulted. -/
theorem login_missing_input (body : JsVal) (u p : JsVal)
    (hbu : getField body "username" = .ok u) (hbp : getField body "password" = .ok p)
    (h : u = .undefined ∨ u = .str "" ∨ p = .undefined ∨ p = .str "") :
    ∀ file : UserFile, login body file
      = .ok ⟨400, .json (.obj [("status", .bool false),
          ("message", .str "Username and password are required")])⟩ := by
  intro file
  have hf : truthy u = false ∨ truthy p = false := by
    rcases h with h | h | h | h <;> subst h <;> simp [truthy]
  exact login_of_falsy body file u p hbu hbp hf

/-- Witness of C4 as amended: an empty body object against a missing file, an empty username
and an absent password against the scenario record, and an empty password against a malformed
file. -/
theorem login_missing_input_witness :
    login (.obj []) .missing
      = .ok ⟨400, .json (.obj [("status", .bool false),
          ("message", .str "Username and password are required")])⟩ ∧
    login (credentials "" "secret") (.parsed adminRecord)
      = .ok ⟨400, .json (.obj [("status", .bool false),
          ("message", .str "Username and password are required")])⟩ ∧
    login (.obj [("username", .str "admin")]) (.parsed adminRecord)
      = .ok ⟨400, .json (.obj [("status", .bool false),
          ("message", .str "Username and password are required")])⟩ ∧
    login (credentials "admin" "") (.malformed "oops")
      = .ok ⟨400, .json (.obj [("status", .bool false),
          ("message", .str "Username and password are required")])⟩ :=
  ⟨login_missing_input (.obj []) .undefined .undefined rfl rfl (Or.inl rfl) .missing,
   login_missing_input (credentials "" "secret") (.str "") (.str "secret") rfl rfl
     (Or.inr (Or.inl rfl)) (.parsed adminRecord),
   login_missing_input (.obj [("username", .str "admin")]) (.str "admin") .undefined rfl rfl
     (Or.inr (Or.inr (Or.inl rfl))) (.parsed adminRecord),
   login_missing_input (credentials "admin" "") (.str "admin") (.str "") rfl rfl
     (Or.inr (Or.inr (Or.inr rfl))) (.malformed "oops")⟩

/-- C4 as stated fails: a request without a body (`req.body` is `undefined`) has neither
candidate, yet the destructuring of line 42 throws inside the `try` and the answer is the 500
of the `catch` block, not MissingInput. -/
theorem login_without_body_not_missing_input :
    login .undefined (.parsed adminRecord) = .ok loginError ∧
    loginError.status = 500 ∧
    login .undefined (.parsed adminRecord) ≠ .ok missingInput :=
  ⟨rfl, rfl, by
    rw [show login .undefined (.parsed adminRecord) = .ok loginError from rfl]
    simp [loginError, missingInput]⟩

/-- C9: when both candidates are present (truthy; for a string, non-empty) and `user.json`
cannot be read or parsed, `/login` answers HTTP 500 with the JSON body
`{error: "Server error during login"}` whatever the candidates are; the answer is none of
Valid, UsernameMismatch and PasswordMismatch, and the exception does not leave the handler. -/
theorem login_storage_unavailable (body : JsVal) (file : UserFile) (u p : JsVal)
    (hbu : getField body "username" = .ok u) (hbp : getField body "password" = .ok p)
    (hu : truthy u = true) (hp : truthy p = true)
    (hfile : ∃ e, readUserData file = .error e) :
    login body file = .ok ⟨500, .json (.obj [("error", .str "Server error during login")])⟩ ∧
    login body file ≠ .ok valid ∧ login body file ≠ .ok usernameMismatch ∧
    login body file ≠ .ok passwordMismatch := by
  obtain ⟨e, he⟩ := hfile
  have h : login body file = .ok loginError := by
    simp [login, hbu, hbp, hu, hp, he, tryCatch, bind, Except.bind, pure, Except.pure]
  rw [h]
  simp [loginError, valid, usernameMismatch, passwordMismatch]

/-- Witness of C9: the scenario credentials against a missing file. -/
theorem login_storage_unavailable_witness :
    login (credentials "admin" "secret") .missing
      = .ok ⟨500, .json (.obj [("error", .str "Server error during login")])⟩ :=
  (login_storage_unavailable (credentials "admin" "secret") .missing (.str "admin")
    (.str "secret") rfl rfl rfl rfl ⟨.ioError, rfl⟩).1

/-- The outcome of `/login` in terms of the operators it applies: a response is always sent,
and it carries `status: true` exactly when the file is read, both candidates are truthy and
the stored username and password are strictly equal to them. -/
theorem login_outcome (body : JsVal) (file : UserFile) :
    ∃ r, login body file = .ok r ∧
      (carriesStatusTrue r = true ↔
        ∃ data u p su sp, readUserData file = .ok data ∧
          getField body "username" = .ok u ∧ getField body "password" = .ok p ∧
          truthy u = true ∧ truthy p = true ∧
          getField data "username" = .ok su ∧ getField data "password" = .ok sp ∧
          strictEq su u = true ∧ strictEq sp p = true) ∧
      (carriesStatusTrue r = true → r = valid) ∧
      (carriesStatusTrue r = false →
        r = missingInput ∨ r = usernameMismatch ∨ r = passwordMismatch ∨ r = loginError) := by
  rcases hbu : getField body "username" with e | u
  · exact ⟨loginError, by simp [login, hbu, tryCatch, bind, Except.bind, pure, Except.pure],
      by simp [carriesStatusTrue_loginError], by simp [carriesStatusTrue_loginError],
      by simp⟩
  rcases hbp : getField body "password" with e | p
  · exact ⟨loginError, by simp [login, hbu, hbp, tryCatch, bind, Except.bind, pure, Except.pure],
      by simp [carriesStatusTrue_loginError], by simp [carriesStatusTrue_loginError],
      by simp⟩
  cases hu : truthy u
  · exact ⟨missingInput, login_of_falsy body file u p hbu hbp (Or.inl hu),
      by simp [carriesStatusTrue_missingInput, hu],
      by simp [carriesStatusTrue_missingInput], by simp⟩
  cases hp : truthy p
  · exact ⟨missingInput, login_of_falsy body file u p hbu hbp (Or.inr hp),
      by simp [carriesStatusTrue_missingInput, hp],
      by simp [carriesStatusTrue_missingInput], by simp⟩
  rcases hfile : readUserData file with e | data
  · exact ⟨loginError,
      by simp [login, hbu, hbp, hu, hp, hfile, tryCatch, bind, Except.bind, pure, Except.pure],
      by simp [carriesStatusTrue_loginError], by simp [carriesStatusTrue_loginError],
      by simp⟩
  rcases hsu : getField data "username" with e | su
  · exact ⟨loginError,
      by simp [login, hbu, hbp, hu, hp, hfile, hsu, tryCatch, bind, Except.bind, pure,
        Except.pure],
      by simp [carriesStatusTrue_loginError, hsu], by simp [carriesStatusTrue_loginError],
      by simp⟩
  cases heu : strictEq su u
  · exact ⟨usernameMismatch,
      by simp [login, hbu, hbp, hu, hp, hfile, hsu, heu, strictNe, tryCatch, bind, Except.bind,
        pure, Except.pure],
      by simp [carriesStatusTrue_usernameMismatch, hsu, heu],
      by simp [carriesStatusTrue_usernameMismatch], by simp⟩
  rcases hsp : getField data "password" with e | sp
  · exact ⟨loginError,
      by simp [login, hbu, hbp, hu, hp, hfile, hsu, hsp, heu, strictNe, tryCatch, bind,
        Except.bind, pure, Except.pure],
      by simp [carriesStatusTrue_loginError, hsp], by simp [carriesStatusTrue_loginError],
      by simp⟩
  cases hep : strictEq sp p
  · exact ⟨passwordMismatch,
      by simp [login, hbu, hbp, hu, hp, hfile, hsu, hsp, heu, hep, strictNe, tryCatch, bind,
        Except.bind, pure, Except.pure],
      by simp [carriesStatusTrue_passwordMismatch, hsu, hsp, hep],
      by simp [carriesStatusTrue_passwordMismatch], by simp⟩
  · exact ⟨valid,
      by simp [login, hbu, hbp, hu, hp, hfile, hsu, hsp, heu, hep, strictNe, tryCatch, bind,
        Except.bind, pure, Except.pure],
      by simp [carriesStatusTrue_valid, hu, hp, hsu, hsp, heu, hep],
      by simp, by simp [carriesStatusTrue_valid]⟩

/-- C10, as amended: soundness and completeness of the Valid outcome for candidates that are
strings or absent.  For every request body whose `username` and `password`, when it is an
object that has them, are strings, and for every state of `user.json`, `/login` sends a
response, and its payload carries `status: true` if and only if the file is read and parsed to
an object, both candidates are present and are non-empty strings, the stored username is the
very string the candidate username is, and the stored password is the very string the
candidate password is (the same characters: case-sensitive, nothing trimmed).  In every other
case the response is one of MissingInput, UsernameMismatch, PasswordMismatch and the 500
error, none of which carries `status: true`. -/
theorem login_status_true_iff (body : JsVal) (file : UserFile)
    (hbody : ∀ bprops v, body = .obj bprops →
      bprops.lookup "username" = some v ∨ bprops.lookup "password" = some v →
      ∃ s, v = .str s) :
    ∃ r, login body file = .ok r ∧
      (carriesStatusTrue r = true ↔
        ∃ props bprops u p, file = .parsed (.obj props) ∧ body = .obj bprops ∧
          bprops.lookup "username" = some (.str u) ∧
          bprops.lookup "password" = some (.str p) ∧
          u ≠ "" ∧ p ≠ "" ∧
          props.lookup "username" = some (.str u) ∧
          props.lookup "password" = some (.str p)) ∧
      (carriesStatusTrue r = true → r = valid) ∧
      (carriesStatusTrue r = false →
        r = missingInput ∨ r = usernameMismatch ∨ r = passwordMismatch ∨ r = loginError) := by
  obtain ⟨r, hr, hiff, hval, hneg⟩ := login_outcome body file
  refine ⟨r, hr, ?_, hval, hneg⟩
  rw [hiff]
  constructor
  · rintro ⟨data, u, p, su, sp, hfile, hbu, hbp, htu, htp, hsu, hsp, heu, hep⟩
    obtain ⟨bprops, hb, hlu⟩ := getField_truthy body "username" u hbu htu
    obtain ⟨bprops2, hb2, hlp⟩ := getField_truthy body "password" p hbp htp
    have hsame : bprops2 = bprops := by
      rw [hb] at hb2
      exact (JsVal.obj.inj hb2).symm
    rw [hsame] at hlp
    obtain ⟨cu, hcu⟩ := hbody bprops u hb (Or.inl hlu)
    obtain ⟨cp, hcp⟩ := hbody bprops p hb (Or.inr hlp)
    subst hcu
    subst hcp
    have hsu2 : su = .str cu := (strictEq_str_right su cu).mp heu
    have hsp2 : sp = .str cp := (strictEq_str_right sp cp).mp hep
    subst hsu2
    subst hsp2
    obtain ⟨props, hd, hpu⟩ := (getField_eq_str data "username" cu).mp hsu
    obtain ⟨props2, hd2, hpp⟩ := (getField_eq_str data "password" cp).mp hsp
    have hsame2 : props2 = props := by
      rw [hd] at hd2
      exact (JsVal.obj.inj hd2).symm
    rw [hsame2] at hpp
    subst hd
    exact ⟨props, bprops, cu, cp, (readUserData_eq_ok file _).mp hfile, hb, hlu, hlp,
      (truthy_str cu).mp htu, (truthy_str cp).mp htp, hpu, hpp⟩
  · rintro ⟨props, bprops, u, p, hfile, hb, hlu, hlp, hu, hp, hpu, hpp⟩
    subst hfile
    subst hb
    exact ⟨.obj props, .str u, .str p, .str u, .str p, rfl,
      (getField_eq_str _ _ _).mpr ⟨bprops, rfl, hlu⟩,
      (getField_eq_str _ _ _).mpr ⟨bprops, rfl, hlp⟩,
      (truthy_str u).mpr hu, (truthy_str p).mpr hp,
      (getField_eq_str _ _ _).mpr ⟨props, rfl, hpu⟩,
      (getField_eq_str _ _ _).mpr ⟨props, rfl, hpp⟩,
      (strictEq_str u u).mpr rfl, (strictEq_str p p).mpr rfl⟩

/-- The candidates of a body `{ username: u, password: p }` of two strings are strings. -/
theorem credentials_strings (u p : String) (bprops : List (String × JsVal)) (v : JsVal)
    (hb : credentials u p = .obj bprops)
    (hl : bprops.lookup "username" = some v ∨ bprops.lookup "password" = some v) :
    ∃ s, v = .str s := by
  have hprops : bprops = [("username", .str u), ("password", .str p)] :=
    (JsVal.obj.inj hb).symm
  subst hprops
  rcases hl with hl | hl
  · exact ⟨u, by simpa [List.lookup] using hl.symm⟩
  · exact ⟨p, by simpa [List.lookup] using hl.symm⟩

/-- Witness of C10 as amended: the scenario credentials, and the same with another case in the
username, against the scenario record. -/
theorem login_status_true_iff_witness :
    (∃ r, login (credentials "admin" "secret") (.parsed adminRecord) = .ok r ∧
      (carriesStatusTrue r = true ↔
        ∃ props bprops u p, UserFile.parsed adminRecord = .parsed (.obj props) ∧
          credentials "admin" "secret" = .obj bprops ∧
          bprops.lookup "username" = some (.str u) ∧
          bprops.lookup "password" = some (.str p) ∧
          u ≠ "" ∧ p ≠ "" ∧
          props.lookup "username" = some (.str u) ∧
          props.lookup "password" = some (.str p)) ∧
      (carriesStatusTrue r = true → r = valid) ∧
      (carriesStatusTrue r = false →
        r = missingInput ∨ r = usernameMismatch ∨ r = passwordMismatch ∨ r = loginError)) ∧
    (∃ r, login (credentials "Admin" "secret") (.parsed adminRecord) = .ok r ∧
      (carriesStatusTrue r = true ↔
        ∃ props bprops u p, UserFile.parsed adminRecord = .parsed (.obj props) ∧
          credentials "Admin" "secret" = .obj bprops ∧
          bprops.lookup "username" = some (.str u) ∧
          bprops.lookup "password" = some (.str p) ∧
          u ≠ "" ∧ p ≠ "" ∧
          props.lookup "username" = some (.str u) ∧
          props.lookup "password" = some (.str p)) ∧
      (carriesStatusTrue r = true → r = valid) ∧
      (carriesStatusTrue r = false →
        r = missingInput ∨ r = usernameMismatch ∨ r = passwordMismatch ∨ r = loginError)) :=
  ⟨login_status_true_iff (credentials "admin" "secret") (.parsed adminRecord)
      (fun bprops v hb hl => credentials_strings "admin" "secret" bprops v hb hl),
   login_status_true_iff (credentials "Admin" "secret") (.parsed adminRecord)
      (fun bprops v hb hl => credentials_strings "Admin" "secret" bprops v hb hl)⟩

/-- C10 as stated fails for candidates that are not strings: with the username `["admin"]`
stored and the very same username `["admin"]` in the body, both present and equal, the file
readable and the password right, the answer is UsernameMismatch, without `status: true`: two
arrays from two parses are never `===`. -/
theorem login_equal_arrays_not_valid :
    getField (.obj [("username", .arr [.str "admin"]), ("password", .str "secret")]) "username"
      = .ok (.arr [.str "admin"]) ∧
    login (.obj [("username", .arr [.str "admin"]), ("password", .str "secret")])
      (.parsed (.obj [("username", .arr [.str "admin"]), ("password", .str "secret")]))
      = .ok usernameMismatch ∧
    carriesStatusTrue usernameMismatch = false :=
  ⟨rfl, rfl, rfl⟩

/-! ## `GET /profile` -/

/-- C5, as amended: for every `user.json` whose content is a record of string fields with
distinct names (as the user record of the data model is), `GET /profile` answers HTTP 200 and
the JSON the client receives is an object with exactly the stored members: every field, the
plaintext password included, with its stored value, none added and none removed.  The members
come in the stored order unless a field name is an array index (such names are enumerated
first). -/
theorem profile_roundtrip (fields : List (String × String))
    (hnames : (fields.map Prod.fst).Nodup) :
    ∃ r sent, profile (stored (record fields)) = .ok r ∧ r.status = 200 ∧
      sentJson r = some (.obj sent) ∧
      sent.Perm (fields.map fun f => (f.1, Json.str f.2)) ∧
      ((∀ f ∈ fields, arrayIndex f.1 = none) → Json.obj sent = record fields) := by
  have hparse : JSONparse (record fields)
      = .obj (fields.foldl (fun a f => defineProp a f.1 (.str f.2)) []) := by
    simp [record, JSONparse, parseMembers_record]
  have hperm := foldl_defineProp_perm fields [] hnames (by simp)
  rw [List.nil_append] at hperm
  have hstr : ∀ q ∈ fields.foldl (fun a f => defineProp a f.1 (.str f.2)) [],
      ∃ s, q.2 = JsVal.str s := by
    intro q hq
    obtain ⟨f, _, hf⟩ := List.mem_map.mp (hperm.subset hq)
    exact ⟨f.2, by rw [← hf]⟩
  have hsent := stringifyProps_strings _ hstr
  refine ⟨⟨200, .json (JSONparse (record fields))⟩,
    stringifyProps (fields.foldl (fun a f => defineProp a f.1 (.str f.2)) []),
    ?_, rfl, ?_, ?_, ?_⟩
  · exact profile_parsed _
  · simp only [sentJson, hparse, JSONstringify]
  · rw [hsent]
    have h2 := hperm.map (fun q : String × JsVal => (q.1, strJson q.2))
    simpa [List.map_map, Function.comp_def, strJson] using h2
  · intro hidx
    have happ := foldl_defineProp_append fields [] hnames (by simp) hidx
    rw [List.nil_append] at happ
    rw [hsent, happ]
    simp [record, List.map_map, Function.comp_def, strJson]

/-- Witness of C5 as amended: the scenario record comes back as it is stored. -/
theorem profile_roundtrip_witness :
    ([("username", "admin"), ("password", "secret")].map Prod.fst).Nodup ∧
    (∃ r sent, profile (stored (record [("username", "admin"), ("password", "secret")])) = .ok r ∧
      r.status = 200 ∧ sentJson r = some (.obj sent) ∧
      sent.Perm ([("username", "admin"), ("password", "secret")].map
        fun f => (f.1, Json.str f.2)) ∧
      ((∀ f ∈ [("username", "admin"), ("password", "secret")], arrayIndex f.1 = none) →
        Json.obj sent = record [("username", "admin"), ("password", "secret")])) :=
  ⟨by decide, profile_roundtrip [("username", "admin"), ("password", "secret")] (by decide)⟩

/-- C5 as stated fails: a stored record with the field `id: 9007199254740993` is read and
parsed, and `GET /profile` answers 200, but the record the client receives has
`id: 9007199254740992`: `JSON.parse` keeps a number as the nearest binary64 value, here
`4503599627370496 * 2 ^ 1`. -/
theorem profile_number_not_roundtrip :
    profile (stored (.obj [("username", .str "admin"), ("password", .str "secret"),
        ("id", .num 9007199254740993)]))
      = .ok ⟨200, .json (.obj [("username", .str "admin"), ("password", .str "secret"),
          ("id", .num (.fin false 4503599627370496 1))])⟩ ∧
    sentJson ⟨200, .json (.obj [("username", .str "admin"), ("password", .str "secret"),
          ("id", .num (.fin false 4503599627370496 1))])⟩
      = some (.obj [("username", .str "admin"), ("password", .str "secret"),
          ("id", .num 9007199254740992)]) ∧
    Json.obj [("username", .str "admin"), ("password", .str "secret"),
        ("id", .num 9007199254740992)]
      ≠ .obj [("username", .str "admin"), ("password", .str "secret"),
        ("id", .num 9007199254740993)] :=
  ⟨rfl, rfl, by simp⟩

/-- C6: `GET /profile` answers HTTP 500 with `{error: "Failed to read user data"}` exactly when
`user.json` cannot be read or parsed (it is missing, unreadable or malformed), and in every
state of the file the handler sends a response: no exception leaves it. -/
theorem profile_error_iff (file : UserFile) :
    (profile file = .ok ⟨500, .json (.obj [("error", .str "Failed to read user data")])⟩
      ↔ ∃ e, readUserData file = .error e) ∧
    ((∃ e, readUserData file = .error e)
      ↔ file = .missing ∨ file = .unreadable ∨ ∃ text, file = .malformed text) ∧
    ∃ r, profile file = .ok r := by
  cases file <;>
    simp [profile, readUserData, profileErrorBody, tryCatch, bind, Except.bind, pure,
      Except.pure]

/-! ## `GET /logout` -/

/-- C7: for every non-empty string `u` given as the `username` query parameter, `GET /logout`
answers HTTP 200 with exactly `<b>` followed by `u`, raw, followed by
` successfully logged out.</b>`.  The handler takes the query alone: the stored record is no
input of it. -/
theorem logout_message (query : List (String × JsVal)) (u : String)
    (hq : query.lookup "username" = some (.str u)) (hu : u ≠ "") :
    logout query = .ok ⟨200, .html ("<b>" ++ u ++ " successfully logged out.</b>")⟩ := by
  simp [logout, hq, truthy, hu, toStr, bind, Except.bind, pure, Except.pure]

/-- Witness of C7: `alice`, and a username that is markup, embedded unescaped. -/
theorem logout_message_witness :
    logout [("username", .str "alice")]
      = .ok ⟨200, .html "<b>alice successfully logged out.</b>"⟩ ∧
    logout [("username", .str "<i>x</i>")]
      = .ok ⟨200, .html "<b><i>x</i> successfully logged out.</b>"⟩ :=
  ⟨logout_message [("username", .str "alice")] "alice" rfl (by decide),
   logout_message [("username", .str "<i>x</i>")] "<i>x</i>" rfl (by decide)⟩

/-- The comment above the route (users.js, lines 78-81) words the message as
`<b>${username} successfully logout.<b>`; the handler sends another text, the one of the
specification, with `logged out.` and a closing tag. -/
theorem logout_not_the_text_of_the_comment :
    logout [("username", .str "alice")]
      ≠ .ok ⟨200, .html "<b>alice successfully logout.<b>"⟩ := by
  rw [show logout [("username", .str "alice")]
    = .ok ⟨200, .html "<b>alice successfully logged out.</b>"⟩ from rfl]
  simp

/-- The template conversion of an object that has an own `toString` property throws, and the
handler of `/logout`, which has no `try`, lets the TypeError escape. -/
theorem logout_shadowed_toString :
    logout [("username", .obj [("toString", .str "x")])] = .error .typeError := rfl

/-- C8: when the `username` query parameter of `GET /logout` is absent or the empty string, the
handler sends a response (no exception leaves it): HTTP 400 with exactly
`<b>Username parameter is required</b>`, which is not the logged-out message of any username. -/
theorem logout_missing_input (query : List (String × JsVal))
    (hq : query.lookup "username" = none ∨ query.lookup "username" = some (.str "")) :
    logout query = .ok ⟨400, .html "<b>Username parameter is required</b>"⟩ ∧
    ∀ r x, logout query = .ok r →
      r.body ≠ .html ("<b>" ++ x ++ " successfully logged out.</b>") := by
  have h : logout query = .ok ⟨400, .html "<b>Username parameter is required</b>"⟩ := by
    rcases hq with hq | hq <;> simp [logout, hq, truthy, pure, Except.pure]
  refine ⟨h, ?_⟩
  intro r x hr
  rw [h] at hr
  cases hr
  intro hb
  exact required_ne_logged_out x (Body.html.inj hb)

/-- Witness of C8: no query parameter at all, and `?username=`. -/
theorem logout_missing_input_witness :
    logout [] = .ok ⟨400, .html "<b>Username parameter is required</b>"⟩ ∧
    logout [("username", .str "")]
      = .ok ⟨400, .html "<b>Username parameter is required</b>"⟩ :=
  ⟨(logout_missing_input [] (Or.inl rfl)).1,
   (logout_missing_input [("username", .str "")] (Or.inr rfl)).1⟩

end Lab05
